import Mathlib

/-!
Shallow embedding of the terraform-provider-pfsense-v2 repository.

The Go sources embedded here are:
  * `internal/provider/provider.go` — provider configuration resolution
    (`ConfiguredURL`, `ConfiguredAuth`, `ConfiguredInsecure`, `Configure`);
  * `internal/api/...` (package `pfsense_rest_v2`) — the API client wrapper
    (`BasicAuth`, `APIKeyAuth`, `AddHeader`, `NewPFSenseClientV2`,
    `GetBaseConfig`, `GetFirewallRules`);
  * `internal/provider/data_source.go` — the data source (`WANRules`, `Read`);
  * `internal/provider/port_range_or_null_validator.go` — the string validator
    (`ValidateString`, `PortNumber`).

Terraform framework values (`types.String`, `types.Bool`) are embedded as
inductives with a null, an unknown and a value constructor; `os.Getenv` is an
explicit environment `String → String` (an unset variable reads as `""`);
diagnostics are a list (every diagnostic added by this code is an error);
the HTTP layer is abstracted by passing the result of each wire call as an
`Except` argument.
-/

/-- Environment, embedding `os.Getenv`: unset variables read as `""`. -/
def Env : Type := String → String

/-- Embedding of `terraform-plugin-framework` `types.String`. -/
inductive TFString where
  | null
  | unknown
  | value (s : String)
deriving DecidableEq, Repr

/-- `types.String.IsNull`. -/
def TFString.IsNull : TFString → Bool
  | .null => true
  | _ => false

/-- `types.String.IsUnknown`. -/
def TFString.IsUnknown : TFString → Bool
  | .unknown => true
  | _ => false

/-- `types.String.ValueString`: the known value, `""` for null/unknown. -/
def TFString.ValueString : TFString → String
  | .value s => s
  | _ => ""

/-- Embedding of `terraform-plugin-framework` `types.Bool`. -/
inductive TFBool where
  | null
  | unknown
  | value (b : Bool)
deriving DecidableEq, Repr

/-- `types.Bool.IsNull`. -/
def TFBool.IsNull : TFBool → Bool
  | .null => true
  | _ => false

/-- `types.Bool.IsUnknown`. -/
def TFBool.IsUnknown : TFBool → Bool
  | .unknown => true
  | _ => false

/-- `types.Bool.ValueBool`: the known value, `false` for null/unknown. -/
def TFBool.ValueBool : TFBool → Bool
  | .value b => b
  | _ => false

/-- One framework diagnostic. Every diagnostic added by this provider is an
error (`AddError` / `AddAttributeError`); `attrPath` is the attribute path of
an `AddAttributeError`, `none` for a plain `AddError`. -/
structure Diagnostic where
  attrPath : Option String
  summary : String
  detail : String
deriving DecidableEq, Repr

/-- `resp.Diagnostics.AddError`. -/
def addError (d : List Diagnostic) (summary detail : String) : List Diagnostic :=
  d ++ [{ attrPath := none, summary := summary, detail := detail }]

/-- `resp.Diagnostics.AddAttributeError`. -/
def addAttributeError (d : List Diagnostic) (attr summary detail : String) :
    List Diagnostic :=
  d ++ [{ attrPath := some attr, summary := summary, detail := detail }]

/-- `resp.Diagnostics.HasError`: every diagnostic in this embedding is an
error, so this is non-emptiness. -/
def hasError (d : List Diagnostic) : Bool := !d.isEmpty

namespace pfsense_rest_v2

/-- An HTTP request, reduced to its header list (`req.Header.Add` appends). -/
structure Request where
  headers : List (String × String)
deriving Repr

/-- `req.Header.Add header value`. -/
def Request.headerAdd (req : Request) (header value : String) : Request :=
  { headers := req.headers ++ [(header, value)] }

/-- `RequestEditorFn`, reduced to its effect on the request (every editor
registered by this code always returns a nil error). -/
abbrev RequestEditor : Type := Request → Request

/-- The generated client: base server URL plus registered request editors. -/
structure Client where
  Server : String
  RequestEditors : List RequestEditor

/-- `ClientOption = func(*Client) error`. -/
abbrev ClientOption : Type := Client → Except String Client

/-- `BasicAuth` from the API client wrapper. -/
structure BasicAuth where
  Username : String
  Password : String
deriving DecidableEq, Repr

/-- `APIKeyAuth` from the API client wrapper. -/
structure APIKeyAuth where
  APIToken : String
deriving DecidableEq, Repr

/-- The `Authorization` interface: its two implementations. -/
inductive Authorization where
  | basic (auth : BasicAuth)
  | apiKey (auth : APIKeyAuth)
deriving DecidableEq, Repr

/-- Go's `[]byte(s)`: UTF-8 bytes of one character, as naturals. -/
def utf8Bytes (c : Char) : List Nat :=
  let n := c.toNat
  if n < 128 then [n]
  else if n < 2048 then [192 + n / 64, 128 + n % 64]
  else if n < 65536 then [224 + n / 4096, 128 + (n / 64) % 64, 128 + n % 64]
  else [240 + n / 262144, 128 + (n / 4096) % 64, 128 + (n / 64) % 64, 128 + n % 64]

/-- Go's `[]byte(s)` for a whole string. -/
def stringBytes (s : String) : List Nat :=
  s.data.flatMap utf8Bytes

/-- The standard base64 alphabet (`base64.StdEncoding`). -/
def base64Alphabet : List Char :=
  "ABCDEFGHIJKLMNOPQRSTUVWXYZabcdefghijklmnopqrstuvwxyz0123456789+/".data

/-- Character for a 6-bit group. -/
def base64Char (n : Nat) : Char := base64Alphabet.getD n '='

/-- Standard base64 with `=` padding, three input bytes at a time. -/
def base64EncodeGroups : List Nat → List Char
  | [] => []
  | [b0] =>
      [base64Char (b0 / 4), base64Char (b0 % 4 * 16), '=', '=']
  | [b0, b1] =>
      [base64Char (b0 / 4), base64Char (b0 % 4 * 16 + b1 / 16),
       base64Char (b1 % 16 * 4), '=']
  | b0 :: b1 :: b2 :: rest =>
      base64Char (b0 / 4) :: base64Char (b0 % 4 * 16 + b1 / 16) ::
      base64Char (b1 % 16 * 4 + b2 / 64) :: base64Char (b2 % 64) ::
      base64EncodeGroups rest

/-- `base64.StdEncoding.EncodeToString([]byte(s))`. -/
def base64EncodeString (s : String) : String :=
  ⟨base64EncodeGroups (stringBytes s)⟩

/-- `AddHeader`: registers a request editor adding the given header. -/
def AddHeader (client : Client) (header value : String) : Client :=
  { client with
    RequestEditors :=
      client.RequestEditors ++ [fun req => req.headerAdd header value] }

/-- `(auth *APIKeyAuth) ClientOption()`. -/
def APIKeyAuth.ClientOption (auth : APIKeyAuth) : pfsense_rest_v2.ClientOption :=
  fun client => .ok (AddHeader client "X-API-Key" auth.APIToken)

/-- `(auth *BasicAuth) ClientOption()`. -/
def BasicAuth.ClientOption (auth : BasicAuth) : pfsense_rest_v2.ClientOption :=
  fun client =>
    .ok (AddHeader client "Authorization"
      ("Basic " ++ base64EncodeString (auth.Username ++ ":" ++ auth.Password)))

/-- Interface dispatch of `Authorization.ClientOption()`. -/
def Authorization.ClientOption : Authorization → pfsense_rest_v2.ClientOption
  | .basic auth => auth.ClientOption
  | .apiKey auth => auth.ClientOption

/-- `WithContentTypeJSON`. -/
def WithContentTypeJSON : pfsense_rest_v2.ClientOption :=
  fun client =>
    .ok { client with
          RequestEditors :=
            client.RequestEditors ++
              [fun req => req.headerAdd "Content-Type" "application/json"] }

/-- Sequential application of client options, as in the generated constructor. -/
def applyClientOptions (client : Client) : List pfsense_rest_v2.ClientOption →
    Except String Client
  | [] => .ok client
  | opt :: rest =>
    match opt client with
    | .error e => .error e
    | .ok c => applyClientOptions c rest

/-- Modelled from the spec: the auto-generated OpenAPI client constructor
(`NewClientWithResponses`, not under `src/`) — it stores the server URL,
applies each client option in order (failing only if an option fails), and
normalises the server URL with a trailing slash. -/
def NewClientWithResponses (server : String)
    (opts : List pfsense_rest_v2.ClientOption) : Except String Client :=
  match applyClientOptions { Server := server, RequestEditors := [] } opts with
  | .error e => .error e
  | .ok c =>
    .ok { c with
          Server := if c.Server.endsWith "/" then c.Server else c.Server ++ "/" }

/-- `PFSenseClientV2`. -/
structure PFSenseClientV2 where
  url : String
  apiClient : Client

/-- `NewPFSenseClientV2`. -/
def NewPFSenseClientV2 (url : String) (auth : Authorization) (insecure : Bool) :
    Except String PFSenseClientV2 :=
  match NewClientWithResponses url [auth.ClientOption, WithContentTypeJSON] with
  | .error err => .error err
  | .ok apiClient => .ok { url := url, apiClient := apiClient }

/-- `PFSenseBaseConfig`. -/
structure PFSenseBaseConfig where
  Hostname : String
  Domain : String
deriving DecidableEq, Repr

/-- The API-layer `PFSenseFirewallRule` (plain strings and booleans). The
field `Type` is spelled `Type_` because `Type` is reserved in Lean. -/
structure PFSenseFirewallRule where
  Type_ : String
  Interfaces : List String
  Disabled : Bool
  AddressFamily : String
  Log : Bool
  Description : String
  Protocol : String
  Source : String
  SourcePort : String
  Destination : String
  DestinationPort : String
deriving DecidableEq, Repr

/-- The hostname payload of a decoded 200 response, as dereferenced by
`GetBaseConfig` (`*response.JSON200.Data.Hostname`, `...Domain`). -/
structure HostnameData where
  Hostname : String
  Domain : String
deriving DecidableEq, Repr

/-- `response.JSON200` for the hostname endpoint. -/
structure HostnameJSON200 where
  Data : HostnameData
deriving DecidableEq, Repr

/-- The generated hostname endpoint response: `JSON200` is non-nil exactly
when the body decoded as a 200 JSON response. -/
structure GetSystemHostnameResponse where
  JSON200 : Option HostnameJSON200
deriving DecidableEq, Repr

/-- One firewall-rule record of the decoded JSON payload, with the generated
field names, each dereferenced by `GetFirewallRules` (`*r.Type`, `*r.Interface`,
`*r.Disabled`, `*r.Ipprotocol`, `*r.Log`, `*r.Descr`, `*r.Protocol`,
`*r.Source`, `*r.SourcePort`, `*r.Destination`, `*r.DestinationPort`).
`Type` is spelled `Type_` because `Type` is reserved in Lean. -/
structure FirewallRuleJSON where
  Type_ : String
  Interface : List String
  Disabled : Bool
  Ipprotocol : String
  Log : Bool
  Descr : String
  Protocol : String
  Source : String
  SourcePort : String
  Destination : String
  DestinationPort : String
deriving DecidableEq, Repr

/-- `response.JSON200` for the firewall-rules endpoint (`Data` dereferences
the generated `*[]FirewallRule`). -/
structure FirewallRulesJSON200 where
  Data : List FirewallRuleJSON
deriving DecidableEq, Repr

/-- The generated firewall-rules endpoint response. -/
structure GetFirewallRulesEndpointResponse where
  JSON200 : Option FirewallRulesJSON200
deriving DecidableEq, Repr

/-- `GetBaseConfig`, with the wire call's outcome passed explicitly:
`callResult` is the `(response, err)` pair of
`GetSystemHostnameEndpointWithResponse`. -/
def GetBaseConfig (callResult : Except String GetSystemHostnameResponse) :
    Except String PFSenseBaseConfig :=
  match callResult with
  | .error err => .error err
  | .ok response =>
    match response.JSON200 with
    | none => .error "unexpected response retrieving base config"
    | some json =>
      .ok { Hostname := json.Data.Hostname, Domain := json.Data.Domain }

/-- The loop body of `GetFirewallRules`: one appended rule. -/
def ruleFromJSON (r : FirewallRuleJSON) : PFSenseFirewallRule :=
  { Type_ := r.Type_
    Interfaces := r.Interface
    Disabled := r.Disabled
    AddressFamily := r.Ipprotocol
    Log := r.Log
    Description := r.Descr
    Protocol := r.Protocol
    Source := r.Source
    SourcePort := r.SourcePort
    Destination := r.Destination
    DestinationPort := r.DestinationPort }

/-- `GetFirewallRules`, with the wire call's outcome passed explicitly:
`callResult` is the `(response, err)` pair of
`GetFirewallRulesEndpointWithResponse`. The loop starting from the empty
slice `[]*PFSenseFirewallRule{}` is a left fold appending one converted rule
per record. -/
def GetFirewallRules
    (callResult : Except String GetFirewallRulesEndpointResponse) :
    Except String (List PFSenseFirewallRule) :=
  match callResult with
  | .error err => .error err
  | .ok response =>
    match response.JSON200 with
    | none => .error "unexpected response retrieving firewall rules"
    | some json =>
      .ok (json.Data.foldl (fun rules r => rules ++ [ruleFromJSON r]) [])

end pfsense_rest_v2

/-- The provider configuration model (`ScaffoldingProviderModel`). -/
structure ScaffoldingProviderModel where
  URL : TFString
  Insecure : TFBool
  APIClientUsername : TFString
  APIClientPassword : TFString
  APIClientToken : TFString
deriving DecidableEq, Repr

/-- Resolution of one string input: the environment variable's value,
overridden by the configuration attribute whenever that attribute is
non-null (`v := os.Getenv(...)`; `if !attr.IsNull() { v = attr.ValueString() }`). -/
def resolveString (configValue : TFString) (envValue : String) : String :=
  if ¬ configValue.IsNull then configValue.ValueString else envValue

/-- The username resolved by `ConfiguredAuth`. -/
def resolvedUsername (env : Env) (config : ScaffoldingProviderModel) : String :=
  resolveString config.APIClientUsername (env "PFSENSEV2_API_USERNAME")

/-- The password resolved by `ConfiguredAuth`. -/
def resolvedPassword (env : Env) (config : ScaffoldingProviderModel) : String :=
  resolveString config.APIClientPassword (env "PFSENSEV2_API_PASSWORD")

/-- The token resolved by `ConfiguredAuth`. -/
def resolvedToken (env : Env) (config : ScaffoldingProviderModel) : String :=
  resolveString config.APIClientToken (env "PFSENSEV2_API_TOKEN")

/-- `ConfiguredURL`: resolves the URL and reports an unknown or empty URL. -/
def ConfiguredURL (env : Env) (config : ScaffoldingProviderModel)
    (diags : List Diagnostic) : String × List Diagnostic :=
  let title := "Unknown PFSenseV2 URL"
  let detail := "The provider cannot create the API client as the URL has an Unknown value. " ++
    "Either target apply the source of the value first, set the value statically " ++
    "in the configuration, or use the PFSENSEV2_URL environment variable."
  let diags :=
    if config.URL.IsUnknown then addAttributeError diags "url" title detail
    else diags
  let url := resolveString config.URL (env "PFSENSEV2_URL")
  let diags :=
    if url = "" then addAttributeError diags "url" title detail else diags
  (url, diags)

/-- `ConfiguredAuth`: resolves the credentials and returns the selected
`Authorization` (`none` embeds Go's nil return). -/
def ConfiguredAuth (env : Env) (config : ScaffoldingProviderModel)
    (diags : List Diagnostic) :
    Option pfsense_rest_v2.Authorization × List Diagnostic :=
  let title := "No valid PFSenseV2 authentication configured"
  let detail := "One of api_client_username/api_client_password or api_client_token must be set in the provider " ++
    "configuration (either with target apply or statically inthe config) or via environment variables " ++
    "PFSENSEV2_API_USERNAME, PFSENSEV2_API_PASSWORD, PFSENSE_API_TOKEN."
  if config.APIClientUsername.IsUnknown ∧ config.APIClientPassword.IsUnknown ∧
      config.APIClientToken.IsUnknown then
    (none, addError diags title detail)
  else
    let username := resolvedUsername env config
    let password := resolvedPassword env config
    let token := resolvedToken env config
    if username ≠ "" ∧ password ≠ "" ∧ token = "" then
      (none, addError diags title
        "Only one of api_client_username/api_client_password or api_client_token can be set for authentication.")
    else if username ≠ "" ∧ password ≠ "" then
      (some (.basic { Username := username, Password := password }), diags)
    else if token ≠ "" then
      (some (.apiKey { APIToken := token }), diags)
    else
      (none, addError diags title detail)

/-- `ConfiguredInsecure`: resolves the TLS-insecure flag and reports an
unknown flag. -/
def ConfiguredInsecure (env : Env) (config : ScaffoldingProviderModel)
    (diags : List Diagnostic) : Bool × List Diagnostic :=
  let title := "Unknown PFSenseV2 Insecure Flag"
  let detail := "The provider cannot create the API client as there is an unknown Insecure flag provided. " ++
    "Please check the configuration value or use the PFSENSEV2_INSECURE environment variable."
  let diags :=
    if config.Insecure.IsUnknown then
      addAttributeError diags "insecure" title detail
    else diags
  let insecure :=
    if 0 < (env "PFSENSEV2_INSECURE").length ∧
        (env "PFSENSEV2_INSECURE").toLower ≠ "false" then true
    else false
  let insecure :=
    if ¬ config.Insecure.IsNull then config.Insecure.ValueBool else insecure
  (insecure, diags)

/-- The configure response: diagnostics plus the client stored for data
sources and resources (`none` embeds the unset nil). -/
structure ConfigureResponse where
  Diagnostics : List Diagnostic
  DataSourceData : Option pfsense_rest_v2.PFSenseClientV2
  ResourceData : Option pfsense_rest_v2.PFSenseClientV2

/-- Outcome of `Configure`: a normal return, or a Go runtime panic
(`auth.ClientOption()` on a nil interface would panic). -/
inductive ConfigureOutcome where
  | ok (resp : ConfigureResponse)
  | panicked (msg : String)

/-- Diagnostics of a configure outcome. -/
def ConfigureOutcome.diags : ConfigureOutcome → List Diagnostic
  | .ok resp => resp.Diagnostics
  | .panicked _ => []

/-- Whether a configure outcome stored a client as `DataSourceData`. -/
def ConfigureOutcome.dataSourceSet : ConfigureOutcome → Bool
  | .ok resp => resp.DataSourceData.isSome
  | .panicked _ => false

/-- `(p *ScaffoldingProvider) Configure`, from the point where the
configuration model has been decoded without diagnostics. -/
def Configure (env : Env) (config : ScaffoldingProviderModel) :
    ConfigureOutcome :=
  let d0 : List Diagnostic := []
  let urlRes := ConfiguredURL env config d0
  let authRes := ConfiguredAuth env config urlRes.2
  let insecureRes := ConfiguredInsecure env config authRes.2
  if hasError insecureRes.2 then
    .ok { Diagnostics := insecureRes.2, DataSourceData := none,
          ResourceData := none }
  else
    match authRes.1 with
    | none => .panicked "runtime error: invalid memory address or nil pointer dereference"
    | some auth =>
      match pfsense_rest_v2.NewPFSenseClientV2 urlRes.1 auth insecureRes.1 with
      | .error err =>
        .ok { Diagnostics :=
                addError insecureRes.2 "Unable to Create PFSenseV2 API Client"
                  ("An unexpected error occurred when creating the PFSenseV2 API client. " ++ err),
              DataSourceData := none, ResourceData := none }
      | .ok client =>
        .ok { Diagnostics := insecureRes.2, DataSourceData := some client,
              ResourceData := some client }

namespace provider

/-- The data-source `PFSenseFirewallRule` (framework-typed fields). `Type` is
spelled `Type_` because `Type` is reserved in Lean. -/
structure PFSenseFirewallRule where
  Type_ : TFString
  Interfaces : List TFString
  Disabled : TFBool
  AddressFamily : TFString
  Log : TFBool
  Description : TFString
  Protocol : TFString
  Source : TFString
  SourcePort : TFString
  Destination : TFString
  DestinationPort : TFString
deriving DecidableEq, Repr

/-- `PFSenseFirewallRules` (the Go slice holds pointers; dereferencing is
implicit here). -/
abbrev PFSenseFirewallRules : Type := List PFSenseFirewallRule

/-- `(rules PFSenseFirewallRules) WANRules()`: the loop appending `*rule`
whenever `rule.Interfaces` contains `types.StringValue("wan")`. -/
def PFSenseFirewallRules.WANRules (rules : PFSenseFirewallRules) :
    List PFSenseFirewallRule :=
  rules.foldl
    (fun wanRules rule =>
      if (TFString.value "wan") ∈ rule.Interfaces then wanRules ++ [rule]
      else wanRules)
    []

/-- `PFSenseModel`, the data-source state. -/
structure PFSenseModel where
  Hostname : TFString
  FirewallRules : PFSenseFirewallRules
deriving DecidableEq, Repr

/-- The read response: diagnostics plus the state, `none` while unset. -/
structure ReadResponse where
  Diagnostics : List Diagnostic
  State : Option PFSenseModel
deriving DecidableEq, Repr

/-- Outcome of `Read`: a normal return or a Go runtime panic. -/
inductive ReadOutcome where
  | ok (resp : ReadResponse)
  | panicked (msg : String)
deriving DecidableEq, Repr

/-- The per-rule conversion in `Read`'s loop: each API field wrapped with
`types.StringValue` / `types.BoolValue`. -/
def dsRuleFromAPI (r : pfsense_rest_v2.PFSenseFirewallRule) :
    PFSenseFirewallRule :=
  { Type_ := .value r.Type_
    Interfaces := r.Interfaces.map .value
    Disabled := .value r.Disabled
    AddressFamily := .value r.AddressFamily
    Log := .value r.Log
    Description := .value r.Description
    Protocol := .value r.Protocol
    Source := .value r.Source
    SourcePort := .value r.SourcePort
    Destination := .value r.Destination
    DestinationPort := .value r.DestinationPort }

/-- `(d *PFSenseDataSource) Read`, from the point where the request
configuration has been decoded without diagnostics. The two wire calls'
outcomes are passed explicitly. On a `GetBaseConfig` error the code adds a
diagnostic but does not return, and `baseConfig` stays nil; the later
`baseConfig.Hostname` dereference is then a runtime panic. -/
def Read (baseConfigResult : Except String pfsense_rest_v2.PFSenseBaseConfig)
    (firewallRulesResult :
      Except String (List pfsense_rest_v2.PFSenseFirewallRule)) :
    ReadOutcome :=
  let d0 : List Diagnostic := []
  let baseConfigStep :
      Option pfsense_rest_v2.PFSenseBaseConfig × List Diagnostic :=
    match baseConfigResult with
    | .error err =>
      (none, addError d0 "Client Error"
        ("Unable to read base config, got error: " ++ err))
    | .ok baseConfig => (some baseConfig, d0)
  let rulesStep :
      List pfsense_rest_v2.PFSenseFirewallRule × List Diagnostic :=
    match firewallRulesResult with
    | .error err =>
      ([], addError baseConfigStep.2 "Client Error"
        ("Unable to read firewall rules, got error: " ++ err))
    | .ok rules => (rules, baseConfigStep.2)
  let firewallRules : PFSenseFirewallRules :=
    rulesStep.1.foldl (fun acc r => acc ++ [dsRuleFromAPI r]) []
  match baseConfigStep.1 with
  | none =>
    .panicked "runtime error: invalid memory address or nil pointer dereference"
  | some baseConfig =>
    .ok { Diagnostics := rulesStep.2,
          State := some { Hostname := .value baseConfig.Hostname,
                          FirewallRules := firewallRules } }

end provider

/-- `strconv.Atoi` (`ParseInt(s, 10, 0)` on a 64-bit platform): an optional
sign, one or more decimal digits, and a value within the signed 64-bit
range; `none` embeds a non-nil error. -/
def Atoi (s : String) : Option Int :=
  match s.data with
  | [] => none
  | c :: cs =>
    let signDigits : Bool × List Char :=
      if c = '-' then (true, cs)
      else if c = '+' then (false, cs)
      else (false, c :: cs)
    if signDigits.2 = [] ∨ ¬ signDigits.2.all Char.isDigit then none
    else
      let n : Nat := signDigits.2.foldl (fun acc d => acc * 10 + (d.toNat - 48)) 0
      let v : Int := if signDigits.1 then -(n : Int) else (n : Int)
      if v < -(2 ^ 63) ∨ (2 ^ 63 : Int) ≤ v then none else some v

/-- `PortNumber`: parses a port, failing outside `1..65535`. -/
def PortNumber (val : String) : Except String Int :=
  match Atoi val with
  | none => .error "value must `null` or a number between 1 and 65535"
  | some n =>
    if n < 1 ∨ 65535 < n then
      .error "value must `null` or a number between 1 and 65535"
    else .ok n

/-- Splitting a character list at every colon (`regexp` helper). -/
def splitOnColon : List Char → List (List Char)
  | [] => [[]]
  | c :: rest =>
    if c = ':' then [] :: splitOnColon rest
    else
      match splitOnColon rest with
      | [] => [[c]]
      | part :: parts => (c :: part) :: parts

/-- The regex `^(\d+):(\d+)$` of `ValidateString`: the two submatches when
the value is two non-empty digit strings joined by a single colon. -/
def portRangeMatch (s : String) : Option (String × String) :=
  match splitOnColon s.data with
  | [a, b] =>
    if a ≠ [] ∧ b ≠ [] ∧ a.all Char.isDigit ∧ b.all Char.isDigit then
      some (⟨a⟩, ⟨b⟩)
    else none
  | _ => none

/-- `PortRangeOrNullValidator.ValidateString`, returning the diagnostics it
appends (the request value is passed already unwrapped). -/
def ValidateString (val : String) : List Diagnostic :=
  if val = "null" then []
  else
    match portRangeMatch val with
    | some (a, b) =>
      match PortNumber a with
      | .error _ =>
        [{ attrPath := some "port", summary := "Invalid port number in range: " ++ a,
           detail := "Value must be a number between 1 and 65535." }]
      | .ok _ =>
        match PortNumber b with
        | .error _ =>
          [{ attrPath := some "port", summary := "Invalid port number in range: " ++ b,
             detail := "Value must be a number between 1 and 65535." }]
        | .ok _ => []
    | none =>
      match Atoi val with
      | none =>
        [{ attrPath := some "port", summary := "Invalid port value",
           detail := "parsing failed" }]
      | some _ => []

/-! ## Concrete fixtures -/

/-- An environment with every variable unset. -/
def envEmpty : Env := fun _ => ""

/-- A configuration with username, password and token all set (conflicting
authentication methods). -/
def cfgConflict : ScaffoldingProviderModel :=
  { URL := .value "https://192.168.1.1", Insecure := .null,
    APIClientUsername := .value "admin", APIClientPassword := .value "pw",
    APIClientToken := .value "tok" }

/-- A configuration with only username and password set. -/
def cfgBasicOnly : ScaffoldingProviderModel :=
  { URL := .value "https://192.168.1.1", Insecure := .null,
    APIClientUsername := .value "admin", APIClientPassword := .value "pw",
    APIClientToken := .null }

/-- A configuration whose username attribute is unknown while a token is
statically set. -/
def cfgUnknownUser : ScaffoldingProviderModel :=
  { URL := .value "https://192.168.1.1", Insecure := .null,
    APIClientUsername := .unknown, APIClientPassword := .null,
    APIClientToken := .value "sometoken" }

/-- A fully null configuration. -/
def cfgAllNull : ScaffoldingProviderModel :=
  { URL := .null, Insecure := .null, APIClientUsername := .null,
    APIClientPassword := .null, APIClientToken := .null }

/-- A fully value-populated configuration, against a non-empty environment. -/
def cfgAllValues : ScaffoldingProviderModel :=
  { URL := .value "https://10.0.0.1", Insecure := .value true,
    APIClientUsername := .value "admin", APIClientPassword := .value "pw",
    APIClientToken := .value "tok" }

/-- An environment with every pfSense variable set to a distinct value. -/
def envFull : Env := fun name =>
  if name = "PFSENSEV2_URL" then "https://env.example"
  else if name = "PFSENSEV2_API_USERNAME" then "envuser"
  else if name = "PFSENSEV2_API_PASSWORD" then "envpass"
  else if name = "PFSENSEV2_API_TOKEN" then "envtok"
  else if name = "PFSENSEV2_INSECURE" then "TRUE"
  else ""

/-- A data-source firewall rule attached to the `lan` interface only. -/
def ruleLan : provider.PFSenseFirewallRule :=
  { Type_ := .value "pass", Interfaces := [.value "lan"],
    Disabled := .value false, AddressFamily := .value "inet",
    Log := .value false, Description := .value "lan rule",
    Protocol := .value "tcp", Source := .value "any",
    SourcePort := .value "null", Destination := .value "any",
    DestinationPort := .value "443" }

/-! ## Helper lemmas -/

theorem foldl_append_eq_map {α β : Type} (f : α → β) (l : List α)
    (acc : List β) :
    l.foldl (fun a x => a ++ [f x]) acc = acc ++ l.map f := by
  induction l generalizing acc with
  | nil => simp
  | cons x xs ih => simp [List.foldl_cons, ih]

theorem foldl_append_eq_filter {α : Type} (p : α → Prop) [DecidablePred p]
    (l : List α) (acc : List α) :
    l.foldl (fun a x => if p x then a ++ [x] else a) acc =
      acc ++ l.filter (fun x => decide (p x)) := by
  induction l generalizing acc with
  | nil => simp
  | cons x xs ih =>
    by_cases h : p x <;> simp [List.foldl_cons, h, ih]

theorem hasError_append (a b : List Diagnostic) :
    hasError (a ++ b) = (hasError a || hasError b) := by
  cases a <;> simp [hasError]

theorem string_length_pos (s : String) : 0 < s.length ↔ s ≠ "" := by
  cases s with
  | mk l =>
    cases l with
    | nil => simp [String.length]
    | cons c cs =>
      simp only [String.length, List.length_cons]
      constructor
      · exact fun _ he => List.cons_ne_nil c cs (congrArg String.data he)
      · exact fun _ => Nat.succ_pos _

theorem configuredURL_fst (env : Env) (cfg : ScaffoldingProviderModel)
    (d : List Diagnostic) :
    (ConfiguredURL env cfg d).1 = resolveString cfg.URL (env "PFSENSEV2_URL") :=
  rfl

theorem configuredURL_snd (env : Env) (cfg : ScaffoldingProviderModel)
    (d : List Diagnostic) :
    (ConfiguredURL env cfg d).2 = d ++ (ConfiguredURL env cfg []).2 := by
  by_cases h1 : cfg.URL.IsUnknown = true <;>
    by_cases h2 : resolveString cfg.URL (env "PFSENSEV2_URL") = "" <;>
      simp [ConfiguredURL, h1, h2, addAttributeError]

theorem configuredAuth_snd (env : Env) (cfg : ScaffoldingProviderModel)
    (d : List Diagnostic) :
    (ConfiguredAuth env cfg d).2 = d ++ (ConfiguredAuth env cfg []).2 := by
  simp only [ConfiguredAuth]
  split
  · simp [addError]
  · split
    · simp [addError]
    · split
      · simp
      · split
        · simp
        · simp [addError]

theorem configuredInsecure_snd (env : Env) (cfg : ScaffoldingProviderModel)
    (d : List Diagnostic) :
    (ConfiguredInsecure env cfg d).2 = d ++ (ConfiguredInsecure env cfg []).2 := by
  simp only [ConfiguredInsecure]
  split <;> simp [addAttributeError]

theorem configuredURL_unknown_ne (env : Env) (cfg : ScaffoldingProviderModel)
    (h : cfg.URL.IsUnknown = true) :
    (ConfiguredURL env cfg []).2 ≠ [] := by
  by_cases h2 : resolveString cfg.URL (env "PFSENSEV2_URL") = "" <;>
    simp [ConfiguredURL, h, h2, addAttributeError]

theorem configuredURL_empty_ne (env : Env) (cfg : ScaffoldingProviderModel)
    (h : (ConfiguredURL env cfg []).1 = "") :
    (ConfiguredURL env cfg []).2 ≠ [] := by
  rw [configuredURL_fst] at h
  by_cases h1 : cfg.URL.IsUnknown = true <;>
    simp [ConfiguredURL, h1, h, addAttributeError]

theorem configuredAuth_allUnknown_ne (env : Env)
    (cfg : ScaffoldingProviderModel)
    (h : cfg.APIClientUsername.IsUnknown = true ∧
         cfg.APIClientPassword.IsUnknown = true ∧
         cfg.APIClientToken.IsUnknown = true) :
    (ConfiguredAuth env cfg []).2 ≠ [] := by
  simp only [ConfiguredAuth, h]
  simp [addError]

theorem configuredAuth_noUsable_ne (env : Env)
    (cfg : ScaffoldingProviderModel)
    (h : ¬(resolvedUsername env cfg ≠ "" ∧ resolvedPassword env cfg ≠ "") ∧
         resolvedToken env cfg = "") :
    (ConfiguredAuth env cfg []).2 ≠ [] := by
  simp only [ConfiguredAuth]
  split
  · simp [addError]
  · split
    · simp [addError]
    · split
      · rename_i hBasic
        exact absurd ⟨hBasic.1, hBasic.2⟩ h.1
      · split
        · rename_i hToken
          exact absurd h.2 hToken
        · simp [addError]

theorem configuredInsecure_unknown_ne (env : Env)
    (cfg : ScaffoldingProviderModel) (h : cfg.Insecure.IsUnknown = true) :
    (ConfiguredInsecure env cfg []).2 ≠ [] := by
  simp only [ConfiguredInsecure, h]
  simp [addAttributeError]

theorem portNumber_ok_iff (v : String) (n : Int) :
    PortNumber v = .ok n ↔ Atoi v = some n ∧ 1 ≤ n ∧ n ≤ 65535 := by
  cases h : Atoi v with
  | none => simp [PortNumber, h]
  | some m =>
    simp only [PortNumber, h, Option.some.injEq]
    split
    · rename_i hout
      constructor
      · intro hc; exact Except.noConfusion hc
      · rintro ⟨rfl, h1, h2⟩; omega
    · rename_i hin
      constructor
      · intro hok
        injection hok with hmn
        subst hmn
        refine ⟨rfl, ?_, ?_⟩ <;> omega
      · rintro ⟨rfl, h1, h2⟩; rfl

theorem validateString_range_iff (s a b : String) (hnull : s ≠ "null")
    (hm : portRangeMatch s = some (a, b)) :
    (ValidateString s = [] ↔
      (∃ n, PortNumber a = .ok n) ∧ (∃ n, PortNumber b = .ok n)) := by
  simp only [ValidateString, if_neg hnull, hm]
  cases hpa : PortNumber a with
  | error e => simp [hpa]
  | ok na =>
    cases hpb : PortNumber b with
    | error e => simp [hpa, hpb]
    | ok nb => simp [hpa, hpb]

/-! ## Claims -/

/-- C1. The claim states that a configuration with both the username/password
pair and the API token non-empty (conflicting authentication) makes
`Configure` surface a diagnostic error and skip client construction. The code
does the opposite: its conflict check tests `token == ""` instead of
`token != ""`, so with all three credentials non-empty no diagnostic is added,
a `BasicAuth` authorization is returned, and `Configure` constructs and
stores the API client. This theorem evaluates `Configure` at such a
configuration. -/
theorem c1_conflicting_auth_constructs_client :
    (Configure envEmpty cfgConflict).diags = [] ∧
    (Configure envEmpty cfgConflict).dataSourceSet = true :=
  ⟨rfl, rfl⟩

/-- C2. The claim states that a non-empty username/password pair with an
empty token makes `ConfiguredAuth` succeed with a `BasicAuth` authorization
and no diagnostic. The code instead hits the inverted conflict check
(`token == ""`), adds the "Only one of ..." error and returns nil. This
theorem evaluates `ConfiguredAuth` at such a configuration. -/
theorem c2_basic_only_rejected :
    ConfiguredAuth envEmpty cfgBasicOnly [] =
      (none,
       [{ attrPath := none,
          summary := "No valid PFSenseV2 authentication configured",
          detail := "Only one of api_client_username/api_client_password or api_client_token can be set for authentication." }]) :=
  rfl

/-- C3. The `BasicAuth` client option registers a request editor adding the
header `Authorization: Basic <base64(username:password)>` (standard base64,
witnessed by a concrete vector), and the `APIKeyAuth` client option registers
a request editor adding the header `X-API-Key: <token>`. -/
theorem c3_auth_header_editors (u p t : String)
    (c : pfsense_rest_v2.Client) :
    pfsense_rest_v2.BasicAuth.ClientOption { Username := u, Password := p } c =
      .ok { c with
            RequestEditors := c.RequestEditors ++
              [fun req => req.headerAdd "Authorization"
                ("Basic " ++ pfsense_rest_v2.base64EncodeString (u ++ ":" ++ p))] } ∧
    pfsense_rest_v2.APIKeyAuth.ClientOption { APIToken := t } c =
      .ok { c with
            RequestEditors := c.RequestEditors ++
              [fun req => req.headerAdd "X-API-Key" t] } ∧
    pfsense_rest_v2.base64EncodeString "admin:pfsense" = "YWRtaW46cGZzZW5zZQ==" :=
  ⟨rfl, rfl, rfl⟩

/-- C4 counterexample. The claim asserts a diagnostic error (and no client)
whenever any of the url/insecure/auth attributes is unknown. With only the
username attribute unknown and a token statically set, `Configure` adds no
diagnostic and stores a client: `ConfiguredAuth` only reports unknownness
when all three auth attributes are unknown, and `ValueString` of an unknown
username resolves to `""`, letting the token method win. -/
theorem c4_counterexample :
    cfgUnknownUser.APIClientUsername.IsUnknown = true ∧
    (Configure envEmpty cfgUnknownUser).diags = [] ∧
    (Configure envEmpty cfgUnknownUser).dataSourceSet = true :=
  ⟨rfl, rfl, rfl⟩

/-- C4 (amended). Whenever the URL resolves to the empty string, or no
authentication method resolves to a usable value, or the url attribute is
unknown, or the insecure attribute is unknown, or all three auth attributes
are unknown, `Configure` adds a diagnostic error and returns before
constructing the API client, leaving `DataSourceData` and `ResourceData`
unset. (The original claim's "any auth attribute unknown" only holds when
all three are unknown.) -/
theorem c4_amended (env : Env) (cfg : ScaffoldingProviderModel)
    (h : (ConfiguredURL env cfg []).1 = "" ∨
      (¬(resolvedUsername env cfg ≠ "" ∧ resolvedPassword env cfg ≠ "") ∧
        resolvedToken env cfg = "") ∨
      cfg.URL.IsUnknown = true ∨
      cfg.Insecure.IsUnknown = true ∨
      (cfg.APIClientUsername.IsUnknown = true ∧
        cfg.APIClientPassword.IsUnknown = true ∧
        cfg.APIClientToken.IsUnknown = true)) :
    ∃ resp, Configure env cfg = .ok resp ∧
      hasError resp.Diagnostics = true ∧
      resp.DataSourceData = none ∧ resp.ResourceData = none := by
  have hsplit :
      (ConfiguredInsecure env cfg
        (ConfiguredAuth env cfg (ConfiguredURL env cfg []).2).2).2 =
      (ConfiguredURL env cfg []).2 ++ (ConfiguredAuth env cfg []).2 ++
        (ConfiguredInsecure env cfg []).2 := by
    rw [configuredInsecure_snd, configuredAuth_snd]
  have hE : hasError
      (ConfiguredInsecure env cfg
        (ConfiguredAuth env cfg (ConfiguredURL env cfg []).2).2).2 = true := by
    rw [hsplit, hasError_append, hasError_append]
    rcases h with h | h | h | h | h
    · have := configuredURL_empty_ne env cfg h
      simp [hasError, List.isEmpty_iff, this]
    · have := configuredAuth_noUsable_ne env cfg h
      simp [hasError, List.isEmpty_iff, this]
    · have := configuredURL_unknown_ne env cfg h
      simp [hasError, List.isEmpty_iff, this]
    · have := configuredInsecure_unknown_ne env cfg h
      simp [hasError, List.isEmpty_iff, this]
    · have := configuredAuth_allUnknown_ne env cfg h
      simp [hasError, List.isEmpty_iff, this]
  have hc : Configure env cfg =
      .ok { Diagnostics :=
              (ConfiguredInsecure env cfg
                (ConfiguredAuth env cfg (ConfiguredURL env cfg []).2).2).2,
            DataSourceData := none, ResourceData := none } := by
    simp [Configure, hE]
  exact ⟨_, hc, hE, rfl, rfl⟩

/-- C4 witness: the amended theorem applied to the fully null configuration
in an empty environment, where the URL resolves to `""`. -/
theorem c4_amended_witness :
    ∃ resp, Configure envEmpty cfgAllNull = .ok resp ∧
      hasError resp.Diagnostics = true ∧
      resp.DataSourceData = none ∧ resp.ResourceData = none :=
  c4_amended envEmpty cfgAllNull (Or.inl rfl)

/-- C5. For each of the URL, username, password, token and insecure inputs,
an explicit non-null configuration value takes precedence over the
corresponding environment variable, and when the configuration value is null
the environment variable's value is used; for the insecure flag the
environment fallback is true iff `PFSENSEV2_INSECURE` is non-empty and not
case-insensitively "false". (`resolvedUsername`, `resolvedPassword` and
`resolvedToken` are the credential resolutions performed inside
`ConfiguredAuth`.) -/
theorem c5_precedence (env : Env) (cfg : ScaffoldingProviderModel) :
    (∀ v, cfg.URL = .value v → (ConfiguredURL env cfg []).1 = v) ∧
    (cfg.URL = .null → (ConfiguredURL env cfg []).1 = env "PFSENSEV2_URL") ∧
    (∀ v, cfg.APIClientUsername = .value v → resolvedUsername env cfg = v) ∧
    (cfg.APIClientUsername = .null →
      resolvedUsername env cfg = env "PFSENSEV2_API_USERNAME") ∧
    (∀ v, cfg.APIClientPassword = .value v → resolvedPassword env cfg = v) ∧
    (cfg.APIClientPassword = .null →
      resolvedPassword env cfg = env "PFSENSEV2_API_PASSWORD") ∧
    (∀ v, cfg.APIClientToken = .value v → resolvedToken env cfg = v) ∧
    (cfg.APIClientToken = .null →
      resolvedToken env cfg = env "PFSENSEV2_API_TOKEN") ∧
    (∀ b, cfg.Insecure = .value b → (ConfiguredInsecure env cfg []).1 = b) ∧
    (cfg.Insecure = .null →
      ((ConfiguredInsecure env cfg []).1 = true ↔
        env "PFSENSEV2_INSECURE" ≠ "" ∧
        (env "PFSENSEV2_INSECURE").toLower ≠ "false")) := by
  refine ⟨fun v hv => ?_, fun h => ?_, fun v hv => ?_, fun h => ?_,
    fun v hv => ?_, fun h => ?_, fun v hv => ?_, fun h => ?_,
    fun b hv => ?_, fun h => ?_⟩
  · rw [configuredURL_fst, hv]
    simp [resolveString, TFString.IsNull, TFString.ValueString]
  · rw [configuredURL_fst, h]
    simp [resolveString, TFString.IsNull]
  · simp [resolvedUsername, resolveString, hv, TFString.IsNull,
      TFString.ValueString]
  · simp [resolvedUsername, resolveString, h, TFString.IsNull]
  · simp [resolvedPassword, resolveString, hv, TFString.IsNull,
      TFString.ValueString]
  · simp [resolvedPassword, resolveString, h, TFString.IsNull]
  · simp [resolvedToken, resolveString, hv, TFString.IsNull,
      TFString.ValueString]
  · simp [resolvedToken, resolveString, h, TFString.IsNull]
  · simp [ConfiguredInsecure, hv, TFBool.IsNull, TFBool.ValueBool]
  · simp only [ConfiguredInsecure, h]
    simp [TFBool.IsNull, string_length_pos]

/-- C5 witness: precedence applied to a fully value-populated configuration
against a non-empty environment, and environment fallback applied to the
fully null configuration. -/
theorem c5_precedence_witness :
    resolvedUsername envFull cfgAllValues = "admin" ∧
    resolvedToken envFull cfgAllNull = "envtok" := by
  refine ⟨?_, ?_⟩
  · exact (c5_precedence envFull cfgAllValues).2.2.1 "admin" rfl
  · exact (c5_precedence envFull cfgAllNull).2.2.2.2.2.2.2.1 rfl

/-- C6. For every decoded JSON 200 firewall-rules response,
`GetFirewallRules` returns one `PFSenseFirewallRule` per JSON record, in the
same order, each field copied verbatim from the corresponding JSON field
(type, interfaces, disabled, address family, log, description, protocol,
source, source port, destination, destination port), and on an empty
response it returns the empty list. -/
theorem c6_rules_copied_verbatim (rs : List pfsense_rest_v2.FirewallRuleJSON) :
    pfsense_rest_v2.GetFirewallRules (.ok { JSON200 := some { Data := rs } }) =
      .ok (rs.map (fun r =>
        { Type_ := r.Type_
          Interfaces := r.Interface
          Disabled := r.Disabled
          AddressFamily := r.Ipprotocol
          Log := r.Log
          Description := r.Descr
          Protocol := r.Protocol
          Source := r.Source
          SourcePort := r.SourcePort
          Destination := r.Destination
          DestinationPort := r.DestinationPort })) ∧
    pfsense_rest_v2.GetFirewallRules
        (.ok { JSON200 := some { Data :=
          ([] : List pfsense_rest_v2.FirewallRuleJSON) } }) = .ok [] := by
  constructor
  · simp only [pfsense_rest_v2.GetFirewallRules]
    rw [foldl_append_eq_map]
    rfl
  · rfl

/-- C8. `GetBaseConfig` returns an error iff the wire call failed or the
response carried no decoded JSON 200 body; otherwise it returns a
`PFSenseBaseConfig` whose `Hostname` and `Domain` equal the hostname and
domain fields of the response payload. -/
theorem c8_base_config_result
    (callResult : Except String pfsense_rest_v2.GetSystemHostnameResponse) :
    ((∃ e, pfsense_rest_v2.GetBaseConfig callResult = .error e) ↔
      ((∃ e, callResult = .error e) ∨
        (∃ resp, callResult = .ok resp ∧ resp.JSON200 = none))) ∧
    (∀ resp json, callResult = .ok resp → resp.JSON200 = some json →
      pfsense_rest_v2.GetBaseConfig callResult =
        .ok { Hostname := json.Data.Hostname, Domain := json.Data.Domain }) := by
  constructor
  · cases callResult with
    | error e => simp [pfsense_rest_v2.GetBaseConfig]
    | ok resp =>
      cases h : resp.JSON200 <;>
        simp [pfsense_rest_v2.GetBaseConfig, h]
  · intro resp json h1 h2
    subst h1
    simp [pfsense_rest_v2.GetBaseConfig, h2]

/-- C8 witness: a decoded 200 response with hostname `pf` and domain
`home.arpa` yields exactly that base configuration. -/
theorem c8_base_config_result_witness :
    pfsense_rest_v2.GetBaseConfig
        (.ok { JSON200 := some { Data :=
          { Hostname := "pf", Domain := "home.arpa" } } }) =
      .ok { Hostname := "pf", Domain := "home.arpa" } :=
  (c8_base_config_result _).2 _ _ rfl rfl

/-- C10. `WANRules` returns exactly the rules whose `Interfaces` list
contains the framework string value `wan`, in their original order and with
all fields unchanged (it is the sublist filter of the input), and the empty
list when no rule matches. -/
theorem c10_wan_rules_filter (rules : provider.PFSenseFirewallRules) :
    rules.WANRules =
      rules.filter (fun r => decide (TFString.value "wan" ∈ r.Interfaces)) ∧
    ((∀ r ∈ rules, TFString.value "wan" ∉ r.Interfaces) →
      rules.WANRules = []) := by
  have hfilter : rules.WANRules =
      rules.filter (fun r => decide (TFString.value "wan" ∈ r.Interfaces)) := by
    simp only [provider.PFSenseFirewallRules.WANRules]
    rw [foldl_append_eq_filter]
    rfl
  refine ⟨hfilter, fun hnone => ?_⟩
  rw [hfilter, List.filter_eq_nil_iff]
  intro r hr
  simpa using hnone r hr

/-- C10 witness: a list with a single non-wan rule filters to the empty
list. -/
theorem c10_wan_rules_filter_witness :
    provider.PFSenseFirewallRules.WANRules [ruleLan] = [] :=
  (c10_wan_rules_filter [ruleLan]).2 (by decide)

/-- C9. `ValidateString` accepts exactly: the literal string `null`; any
value matching `^(\d+):(\d+)$` whose two digit groups both parse to integers
in `1..65535` (a diagnostic is added otherwise); and any other string that
`strconv.Atoi` parses — so single-port values are not bounds-checked and
`0` and `70000` pass validation, while `PortNumber` itself succeeds exactly
when its argument parses to an integer in `1..65535`. -/
theorem c9_validator_acceptance (s : String) :
    (ValidateString s = [] ↔
      s = "null" ∨
      (∃ a b, portRangeMatch s = some (a, b) ∧
        (∃ na, Atoi a = some na ∧ 1 ≤ na ∧ na ≤ 65535) ∧
        (∃ nb, Atoi b = some nb ∧ 1 ≤ nb ∧ nb ≤ 65535)) ∨
      (s ≠ "null" ∧ portRangeMatch s = none ∧ (Atoi s).isSome = true)) ∧
    ValidateString "0" = [] ∧
    ValidateString "70000" = [] ∧
    (∀ v, (∃ n, PortNumber v = .ok n) ↔
      (∃ n, Atoi v = some n ∧ 1 ≤ n ∧ n ≤ 65535)) := by
  refine ⟨?_, rfl, rfl, fun v =>
    ⟨fun ⟨n, hn⟩ => ⟨n, (portNumber_ok_iff v n).mp hn⟩,
     fun ⟨n, hn⟩ => ⟨n, (portNumber_ok_iff v n).mpr hn⟩⟩⟩
  by_cases hnull : s = "null"
  · simp [ValidateString, hnull]
  · cases hm : portRangeMatch s with
    | none =>
      cases hA : Atoi s with
      | none => simp [ValidateString, if_neg hnull, hm, hA, hnull]
      | some n => simp [ValidateString, if_neg hnull, hm, hA, hnull]
    | some ab =>
      obtain ⟨a, b⟩ := ab
      rw [validateString_range_iff s a b hnull hm]
      constructor
      · rintro ⟨⟨na, hna⟩, ⟨nb, hnb⟩⟩
        exact Or.inr (Or.inl ⟨a, b, rfl,
          ⟨na, (portNumber_ok_iff a na).mp hna⟩,
          ⟨nb, (portNumber_ok_iff b nb).mp hnb⟩⟩)
      · rintro (h | ⟨a', b', hm', ⟨na, hna⟩, ⟨nb, hnb⟩⟩ | ⟨_, hmn, _⟩)
        · exact absurd h hnull
        · injection hm' with hab
          have h1 : a = a' := congrArg Prod.fst hab
          have h2 : b = b' := congrArg Prod.snd hab
          subst h1
          subst h2
          exact ⟨⟨na, (portNumber_ok_iff a na).mpr hna⟩,
            ⟨nb, (portNumber_ok_iff b nb).mpr hnb⟩⟩
        · exact Option.noConfusion hmn

/-- C7. The claim states that when `GetBaseConfig` or `GetFirewallRules`
fails, `Read` surfaces the error message as a diagnostic and completes with
no other effect (no panic, no partial state). The code adds the diagnostic
but is missing the `return`: on a `GetBaseConfig` error the nil `baseConfig`
is dereferenced, a runtime panic; on a `GetFirewallRules` error alone the
state is still written alongside the error diagnostic. This theorem
evaluates both failing paths. -/
theorem c7_read_error_behaviour :
    provider.Read (.error "connection refused") (.ok []) =
      .panicked "runtime error: invalid memory address or nil pointer dereference" ∧
    provider.Read (.ok { Hostname := "pf", Domain := "home.arpa" })
        (.error "boom") =
      .ok { Diagnostics :=
              [{ attrPath := none, summary := "Client Error",
                 detail := "Unable to read firewall rules, got error: boom" }],
            State := some { Hostname := .value "pf", FirewallRules := [] } } :=
  ⟨rfl, rfl⟩
